import Mathlib

/-!
Shallow embedding of the quota-enforcement core of the cloud access gateway
(`src/main.py`): the data model (plans, subscriptions, usage records), the
access check endpoint `check_access`, the usage increment endpoint
`track_usage`, their composition in `dummy_cloud_api`, and the subscription
upsert `subscribe`.

MongoDB collections are modelled as lists of documents in insertion order:
`find_one` is `List.find?` (first match), `insert_one` appends,
`replace_one`/`update_one` rewrite the first matching document.
Timestamps (`datetime`) are modelled as natural numbers; Python's unbounded
`int` is `Int`.
-/

/-- The `Plan` pydantic model from main.py: permitted API names and per-API
integer limits (`api_limits` is a Python dict, modelled as an association
list keyed by API name). -/
structure Plan where
  id : String
  name : String
  descr : String
  api_permissions : List String
  api_limits : List (String × Int)
deriving DecidableEq, Repr

/-- The `Subscription` pydantic model from main.py. -/
structure Subscription where
  user_id : String
  plan_id : String
  start_date : Nat
  end_date : Option Nat
deriving DecidableEq, Repr

/-- The `UsageRecord` pydantic model from main.py. -/
structure UsageRecord where
  user_id : String
  api_name : String
  count : Int
  last_reset : Nat
deriving DecidableEq, Repr

/-- The MongoDB database `cloud_access_db`: the three collections the quota
core reads and writes. -/
structure DB where
  subscriptions : List Subscription
  plans : List Plan
  usage : List UsageRecord
deriving DecidableEq, Repr

/-- Python `dict.get(k, default)` on the `api_limits` association list. -/
def dictGet (d : List (String × Int)) (k : String) (default : Int) : Int :=
  match d.find? (fun p => p.1 == k) with
  | some p => p.2
  | none => default

/-- Outcome of the `GET /access/{user_id}/{api_name}` endpoint: either the
JSON body `{"access": True}` or one of the three `HTTPException`s raised
by `check_access` (404 subscription not found, 403 API not allowed,
429 limit exceeded). -/
inductive CheckResult where
  | accessTrue
  | subNotFound
  | apiNotAllowed
  | limitExceeded
deriving DecidableEq, Repr

/-- Endpoint `check_access` from main.py (lines 148-162): look up the subscription
(404 if absent), the plan (403 if the plan is missing or the API is not in
`api_permissions`), then deny with 429 if a usage record exists and its
count is at least `plan.api_limits.get(api_name, 0)`. Read-only. -/
def check_access (db : DB) (user_id api_name : String) : CheckResult :=
  match db.subscriptions.find? (fun s => s.user_id == user_id) with
  | none => .subNotFound
  | some subscription =>
    match db.plans.find? (fun p => p.id == subscription.plan_id) with
    | none => .apiNotAllowed
    | some plan =>
      if api_name ∈ plan.api_permissions then
        match db.usage.find? (fun u => u.user_id == user_id && u.api_name == api_name) with
        | some usage =>
          if usage.count ≥ dictGet plan.api_limits api_name 0 then .limitExceeded
          else .accessTrue
        | none => .accessTrue
      else .apiNotAllowed

/-- Mongo `update_one` with a `$set` of the `count` field: set the `count`
field of the first matching usage document, leaving every other field and
every other document unchanged. -/
def updateCountFirst : List UsageRecord → String → String → Int → List UsageRecord
  | [], _, _, _ => []
  | r :: rs, u, a, c =>
    if r.user_id == u && r.api_name == a then { r with count := c } :: rs
    else r :: updateCountFirst rs u a c

/-- Endpoint `track_usage` from main.py (lines 164-182): if no usage record exists
for `(user_id, api_name)` insert one with `count = 1` and
`last_reset = datetime.utcnow()` (the call time `now`), else increment the
existing record's count with `$set`. Returns the JSON `count` value and
the updated database. No subscription, permission or limit check. -/
def track_usage (db : DB) (user_id api_name : String) (now : Nat) : Int × DB :=
  match db.usage.find? (fun u => u.user_id == user_id && u.api_name == api_name) with
  | none =>
    (1, { db with usage := db.usage ++ [⟨user_id, api_name, 1, now⟩] })
  | some usage =>
    let new_count := usage.count + 1
    (new_count, { db with usage := updateCountFirst db.usage user_id api_name new_count })

/-- Reason component of a denied admission decision, as the spec names the
three HTTP failure modes of `check_access`. -/
inductive DenyReason where
  | NoSubscription
  | PermissionDenied
  | LimitExceeded
deriving DecidableEq, Repr

/-- Admission decision returned to the caller of the dummy cloud endpoint. -/
inductive Decision where
  | Allowed
  | Denied (reason : DenyReason)
deriving DecidableEq, Repr

/-- Endpoint `dummy_cloud_api` from main.py (lines 196-200), the `CheckAndConsume`
composition: run `check_access`; an `HTTPException` propagates (the state
is untouched and `track_usage` is never reached), otherwise run
`track_usage` and report success. -/
def checkAndConsume (db : DB) (user_id api_name : String) (now : Nat) : Decision × DB :=
  match check_access db user_id api_name with
  | .subNotFound => (.Denied .NoSubscription, db)
  | .apiNotAllowed => (.Denied .PermissionDenied, db)
  | .limitExceeded => (.Denied .LimitExceeded, db)
  | .accessTrue =>
    let r := track_usage db user_id api_name now
    (.Allowed, r.2)

/-- Mongo `replace_one` keyed on `user_id = authId` with upsert, on the subscriptions
collection: replace the first document whose `user_id` equals the
authenticated caller's id with the posted body, inserting it if none
matches. -/
def replaceOneSub : List Subscription → String → Subscription → List Subscription
  | [], _, s => [s]
  | r :: rs, uid, s =>
    if r.user_id == uid then s :: rs else r :: replaceOneSub rs uid s

/-- Endpoint `subscribe` from main.py (lines 122-127): the authenticated customer
`authId` posts a `Subscription` body `sub`; the filter is the caller's id
but the stored document is the body (whose `user_id` may differ). -/
def subscribe (store : List Subscription) (authId : String) (sub : Subscription) :
    List Subscription :=
  replaceOneSub store authId sub

/-- Progress of one in-flight `dummy_cloud_api` request: not yet started,
past its `check_access` await (admitted but not yet counted), or finished
with a decision. The two awaited coroutine calls of `dummy_cloud_api` are
the interleaving points of the asyncio event loop. -/
inductive Phase where
  | start
  | checked
  | done (d : Decision)
deriving DecidableEq, Repr

/-- Run the next awaited step of one in-flight call for `(u, a)`: from
`start` execute `check_access` atomically (finishing with the mapped denial
on an HTTPException), from `checked` execute `track_usage` atomically and
finish with `Allowed`. A finished call is a no-op. -/
def stepOne (db : DB) (ph : Phase) (u a : String) (now : Nat) : DB × Phase :=
  match ph with
  | .start =>
    match check_access db u a with
    | .accessTrue => (db, .checked)
    | .subNotFound => (db, .done (.Denied .NoSubscription))
    | .apiNotAllowed => (db, .done (.Denied .PermissionDenied))
    | .limitExceeded => (db, .done (.Denied .LimitExceeded))
  | .checked =>
    let r := track_usage db u a now
    (r.2, .done .Allowed)
  | .done d => (db, .done d)

/-- Run a schedule (a list of call indices) over a pool of in-flight calls
to `dummy_cloud_api` for the same `(u, a)`: each schedule entry advances
the named call by one awaited step. An out-of-range index is a no-op. -/
def runSched (u a : String) (now : Nat) :
    DB → List Phase → List Nat → DB × List Phase
  | db, phs, [] => (db, phs)
  | db, phs, i :: rest =>
    match phs.get? i with
    | none => runSched u a now db phs rest
    | some ph =>
      let r := stepOne db ph u a now
      runSched u a now r.1 (phs.set i r.2) rest

/-- Number of calls in the pool that finished with an `Allowed` decision. -/
def allowedCount (phs : List Phase) : Nat :=
  phs.countP (fun ph => ph == .done .Allowed)

/-- Current usage count for `(u, a)` as an observer would read it:
the stored count of the first matching record, `0` if none exists. -/
def getCount (db : DB) (u a : String) : Int :=
  match db.usage.find? (fun x => x.user_id == u && x.api_name == a) with
  | some r => r.count
  | none => 0

/-- Iterate `n` successive direct `track_usage` calls for the same `(u, a)`. -/
def iterTrack (u a : String) (now : Nat) : Nat → DB → DB
  | 0, db => db
  | n + 1, db => iterTrack u a now n (track_usage db u a now).2

/-- Replace every subscription's `end_date` by `e`, leaving all other
fields and collections alone (used to state that expiry is never read). -/
def setEndDates (e : Option Nat) (db : DB) : DB :=
  { db with subscriptions := db.subscriptions.map (fun s => { s with end_date := e }) }

section Helpers

/-- The usage-record key predicate used by `find_one` and `update_one`. -/
def usageKey (u a : String) : UsageRecord → Bool :=
  fun x => x.user_id == u && x.api_name == a

theorem find?_eq_usageKey (l : List UsageRecord) (u a : String) :
    l.find? (fun x => x.user_id == u && x.api_name == a) = l.find? (usageKey u a) := rfl

theorem find?_append_insert (l : List UsageRecord) (u a : String) (c : Int) (t : Nat)
    (h : l.find? (usageKey u a) = none) :
    (l ++ [(⟨u, a, c, t⟩ : UsageRecord)]).find? (usageKey u a) =
      some (⟨u, a, c, t⟩ : UsageRecord) := by
  induction l with
  | nil => simp [usageKey]
  | cons r rs ih =>
    have hk : ¬usageKey u a r = true := List.find?_eq_none.mp h r (List.mem_cons_self r rs)
    have hrest : rs.find? (usageKey u a) = none :=
      List.find?_eq_none.mpr (fun x hx => List.find?_eq_none.mp h x (List.mem_cons_of_mem r hx))
    rw [List.cons_append, List.find?_cons_of_neg _ hk]
    exact ih hrest

theorem find?_updateCountFirst (l : List UsageRecord) (u a : String) (c : Int)
    (r : UsageRecord) (h : l.find? (usageKey u a) = some r) :
    (updateCountFirst l u a c).find? (usageKey u a) = some { r with count := c } := by
  induction l with
  | nil => simp at h
  | cons r₀ rs ih =>
    cases hk : usageKey u a r₀ with
    | true =>
      rw [List.find?_cons_of_pos _ hk] at h
      have hr : r₀ = r := by injection h
      subst hr
      have hk' : (r₀.user_id == u && r₀.api_name == a) = true := hk
      have heq : updateCountFirst (r₀ :: rs) u a c = { r₀ with count := c } :: rs := by
        simp [updateCountFirst, hk']
      rw [heq]
      exact List.find?_cons_of_pos _ hk'
    | false =>
      rw [List.find?_cons_of_neg _ (by simp [hk])] at h
      have hk' : (r₀.user_id == u && r₀.api_name == a) = false := hk
      have heq : updateCountFirst (r₀ :: rs) u a c = r₀ :: updateCountFirst rs u a c := by
        simp [updateCountFirst, hk']
      rw [heq, List.find?_cons_of_neg _ (by simp [hk])]
      exact ih h

theorem map_updateCountFirst (l : List UsageRecord) (u a : String) (c : Int) :
    (updateCountFirst l u a c).map (fun x => (x.user_id, x.api_name, x.last_reset)) =
      l.map (fun x => (x.user_id, x.api_name, x.last_reset)) := by
  induction l with
  | nil => rfl
  | cons r rs ih =>
    by_cases h : (r.user_id == u && r.api_name == a) = true
    · simp [updateCountFirst, h]
    · simp [updateCountFirst, h, ih]

theorem mem_replaceOneSub (l : List Subscription) (uid : String) (s x : Subscription)
    (h : x ∈ replaceOneSub l uid s) : x ∈ l ∨ x = s := by
  induction l with
  | nil => simp [replaceOneSub] at h; right; exact h
  | cons r rs ih =>
    by_cases hk : (r.user_id == uid) = true
    · simp only [replaceOneSub, hk, if_pos rfl] at h
      rcases List.mem_cons.mp h with h1 | h2
      · right; exact h1
      · left; exact List.mem_cons_of_mem _ h2
    · simp only [replaceOneSub, hk] at h
      rw [if_neg (by simp [hk])] at h
      rcases List.mem_cons.mp h with h1 | h2
      · left; exact h1 ▸ List.mem_cons_self _ _
      · rcases ih h2 with h3 | h4
        · left; exact List.mem_cons_of_mem _ h3
        · right; exact h4

theorem find?_map_setEnd (l : List Subscription) (u : String) (e : Option Nat) :
    (l.map (fun s => { s with end_date := e })).find? (fun s => s.user_id == u) =
      (l.find? (fun s => s.user_id == u)).map (fun s => { s with end_date := e }) := by
  induction l with
  | nil => rfl
  | cons r rs ih =>
    by_cases hk : (r.user_id == u) = true
    · simp [List.find?_cons, hk]
    · simp only [List.map_cons, List.find?_cons]
      have hk' : (r.user_id == u) = false := by simpa using hk
      simp only [show ((({ r with end_date := e } : Subscription).user_id == u)) = false from hk', hk']
      exact ih

end Helpers

section TrackLemmas

theorem track_usage_fst (db : DB) (u a : String) (now : Nat) :
    (track_usage db u a now).1 = getCount db u a + 1 := by
  cases h : db.usage.find? (fun x => x.user_id == u && x.api_name == a) with
  | none => simp [track_usage, getCount, h]
  | some r => simp [track_usage, getCount, h]

theorem getCount_track_usage (db : DB) (u a : String) (now : Nat) :
    getCount (track_usage db u a now).2 u a = getCount db u a + 1 := by
  cases h : db.usage.find? (fun x => x.user_id == u && x.api_name == a) with
  | none =>
    have h' : db.usage.find? (usageKey u a) = none := h
    simp only [track_usage, h, getCount]
    rw [find?_eq_usageKey, find?_append_insert _ _ _ _ _ h']
    simp [getCount, h]
  | some r =>
    have h' : db.usage.find? (usageKey u a) = some r := h
    simp only [track_usage, h, getCount]
    rw [find?_eq_usageKey, find?_updateCountFirst _ _ _ _ _ h']

theorem track_usage_subs_plans (db : DB) (u a : String) (now : Nat) :
    (track_usage db u a now).2.subscriptions = db.subscriptions ∧
      (track_usage db u a now).2.plans = db.plans := by
  cases h : db.usage.find? (fun x => x.user_id == u && x.api_name == a) with
  | none => simp [track_usage, h]
  | some r => simp [track_usage, h]

theorem getCount_iterTrack (u a : String) (now : Nat) (n : Nat) (db : DB) :
    getCount (iterTrack u a now n db) u a = getCount db u a + (n : Int) := by
  induction n generalizing db with
  | zero => simp [iterTrack]
  | succ m ih =>
    rw [iterTrack, ih, getCount_track_usage]
    push_cast
    ring

end TrackLemmas

/-- CLAIM C9. The usage-tracking operation increments unconditionally: for
every database state and `(user_id, api_name)`, `track_usage` returns the
previous count plus one (count `0` if no record exists, so a fresh record
holds `1`), the stored count afterwards equals that returned value, the
subscriptions and plans collections are untouched (no subscription,
permission or limit check is consulted), and `n` direct calls raise the
counter by exactly `n` — arbitrarily far past any configured limit. -/
theorem track_usage_unconditional_increment (db : DB) (u a : String) (now : Nat) :
    (track_usage db u a now).1 = getCount db u a + 1 ∧
      getCount (track_usage db u a now).2 u a = getCount db u a + 1 ∧
      (track_usage db u a now).2.subscriptions = db.subscriptions ∧
      (track_usage db u a now).2.plans = db.plans ∧
      ∀ n : Nat, getCount (iterTrack u a now n db) u a = getCount db u a + (n : Int) :=
  ⟨track_usage_fst db u a now, getCount_track_usage db u a now,
    (track_usage_subs_plans db u a now).1, (track_usage_subs_plans db u a now).2,
    fun n => getCount_iterTrack u a now n db⟩

/-- CLAIM C10. Frame property of the usage increment: when a usage record
already exists for `(user_id, api_name)`, `track_usage` only changes that
record's `count` (to its previous value plus one); its `user_id`,
`api_name` and `last_reset` fields are unchanged, and every record in the
collection keeps its identity fields and `last_reset` (so `last_reset`
keeps its creation-time value forever under increments). -/
theorem track_usage_frame (db : DB) (u a : String) (now : Nat) (rec : UsageRecord)
    (h : db.usage.find? (fun x => x.user_id == u && x.api_name == a) = some rec) :
    (track_usage db u a now).2.usage.find? (fun x => x.user_id == u && x.api_name == a) =
        some (⟨rec.user_id, rec.api_name, rec.count + 1, rec.last_reset⟩ : UsageRecord) ∧
      (track_usage db u a now).2.usage.map (fun x => (x.user_id, x.api_name, x.last_reset)) =
        db.usage.map (fun x => (x.user_id, x.api_name, x.last_reset)) := by
  have h' : db.usage.find? (usageKey u a) = some rec := h
  constructor
  · simp only [track_usage, h]
    rw [find?_eq_usageKey, find?_updateCountFirst _ _ _ _ _ h']
  · simp only [track_usage, h]
    exact map_updateCountFirst _ _ _ _

/-- Witness for C10 at a concrete database holding a usage record with
count `3` and `last_reset` `17`. -/
theorem track_usage_frame_witness :
    (track_usage ⟨[], [], [⟨"U1", "storage", 3, 17⟩]⟩ "U1" "storage" 999).2.usage.find?
        (fun x => x.user_id == "U1" && x.api_name == "storage") =
        some (⟨"U1", "storage", 4, 17⟩ : UsageRecord) ∧
      (track_usage ⟨[], [], [⟨"U1", "storage", 3, 17⟩]⟩ "U1" "storage" 999).2.usage.map
          (fun x => (x.user_id, x.api_name, x.last_reset)) =
        ([⟨"U1", "storage", 3, 17⟩] : List UsageRecord).map
          (fun x => (x.user_id, x.api_name, x.last_reset)) :=
  track_usage_frame ⟨[], [], [⟨"U1", "storage", 3, 17⟩]⟩ "U1" "storage" 999
    ⟨"U1", "storage", 3, 17⟩ (by decide)

/-- CLAIM C5. For every user with no subscription record, `CheckAndConsume`
returns `Denied{NoSubscription}` and the database — in particular the usage
collection — is returned unchanged: no usage record is created. -/
theorem no_subscription_denied_no_mutation (db : DB) (u a : String) (now : Nat)
    (h : db.subscriptions.find? (fun s => s.user_id == u) = none) :
    checkAndConsume db u a now = (.Denied .NoSubscription, db) := by
  simp [checkAndConsume, check_access, h]

/-- Witness for C5: user `U2` has no subscription in a database that is
otherwise populated; the call is denied and the state is untouched. -/
theorem no_subscription_denied_no_mutation_witness :
    checkAndConsume ⟨[⟨"U1", "p1", 0, none⟩], [], []⟩ "U2" "storage" 5 =
      (.Denied .NoSubscription, ⟨[⟨"U1", "p1", 0, none⟩], [], []⟩) :=
  no_subscription_denied_no_mutation ⟨[⟨"U1", "p1", 0, none⟩], [], []⟩ "U2" "storage" 5
    (by decide)

/-- CLAIM C6. For every `(user, api)` pair whose resolved plan does not list
`api` in `api_permissions` — even if `api_limits` has an entry for it —
`CheckAndConsume` returns `Denied{PermissionDenied}` whatever the usage
count, and the database (hence the usage counter) is unchanged. -/
theorem permission_denied_no_mutation (db : DB) (u a : String) (now : Nat)
    (sub : Subscription) (plan : Plan)
    (h1 : db.subscriptions.find? (fun s => s.user_id == u) = some sub)
    (h2 : db.plans.find? (fun p => p.id == sub.plan_id) = some plan)
    (h3 : a ∉ plan.api_permissions) :
    checkAndConsume db u a now = (.Denied .PermissionDenied, db) := by
  simp [checkAndConsume, check_access, h1, h2, h3]

/-- Witness for C6: plan `p3` has a limit entry for `compute` but no
permission for it, and a usage record with count `7` already exists; the
call is denied with `PermissionDenied` and the state is untouched. -/
theorem permission_denied_no_mutation_witness :
    checkAndConsume
        ⟨[⟨"U1", "p3", 0, none⟩], [⟨"p3", "P3", "", ["storage"], [("compute", 5)]⟩],
          [⟨"U1", "compute", 7, 0⟩]⟩ "U1" "compute" 9 =
      (.Denied .PermissionDenied,
        ⟨[⟨"U1", "p3", 0, none⟩], [⟨"p3", "P3", "", ["storage"], [("compute", 5)]⟩],
          [⟨"U1", "compute", 7, 0⟩]⟩) :=
  permission_denied_no_mutation _ "U1" "compute" 9 ⟨"U1", "p3", 0, none⟩
    ⟨"p3", "P3", "", ["storage"], [("compute", 5)]⟩ (by decide) (by decide) (by decide)

/-- User `U1` on plan `p1` granting `storage` with limit `1`; no usage yet. -/
def dbRace : DB :=
  ⟨[⟨"U1", "p1", 0, none⟩], [⟨"p1", "P1", "", ["storage"], [("storage", 1)]⟩], []⟩

/-- CLAIM C1. The check-then-increment composition of `dummy_cloud_api` is
not atomic: with limit `1` for `storage`, two concurrent calls whose
`check_access` steps both run before either `track_usage` step (schedule
`[0, 1, 0, 1]`) both finish `Allowed` — `2` Allowed outcomes against a
configured limit of `1`, so an interleaving exceeds the limit. -/
theorem dummy_cloud_api_race_exceeds_limit :
    dictGet (⟨"p1", "P1", "", ["storage"], [("storage", 1)]⟩ : Plan).api_limits "storage" 0 = 1 ∧
      allowedCount (runSched "U1" "storage" 0 dbRace [.start, .start] [0, 1, 0, 1]).2 = 2 := by
  decide

/-- User `u1` on plan `p1` (limit `2` for `storage`) with a usage record
already at the limit (`count = 2`) whose `last_reset` is time `0`. -/
def dbAtLimit : DB :=
  ⟨[⟨"u1", "p1", 0, none⟩], [⟨"p1", "P1", "", ["storage"], [("storage", 2)]⟩],
    [⟨"u1", "storage", 2, 0⟩]⟩

/-- CLAIM C2. The code never rolls the window over: `last_reset` is recorded
but never read, so for every call time `now` — arbitrarily far past
`last_reset` plus any window duration — a counter at the limit still denies
with `LimitExceeded` and the count is not reset to `0`. -/
theorem check_access_never_resets_window (now : Nat) :
    checkAndConsume dbAtLimit "u1" "storage" now = (.Denied .LimitExceeded, dbAtLimit) := rfl

/-- User `U1` on plan `p1` granting `storage` with limit `2`; no usage yet
(the §8 sequential example, with `t0 = 100`). -/
def dbSeq : DB :=
  ⟨[⟨"U1", "p1", 100, none⟩], [⟨"p1", "P1", "", ["storage"], [("storage", 2)]⟩], []⟩

/-- First call of the sequential example, at `t0 = 100`. -/
def c4call1 : Decision × DB := checkAndConsume dbSeq "U1" "storage" 100

/-- Second call, also at `t0`. -/
def c4call2 : Decision × DB := checkAndConsume c4call1.2 "U1" "storage" 100

/-- Third call, at `t0 + ε = 101`. -/
def c4call3 : Decision × DB := checkAndConsume c4call2.2 "U1" "storage" 101

/-- Fourth call, at `t0 + windowDuration + ε = 3701` (window `3600`). -/
def c4call4 : Decision × DB := checkAndConsume c4call3.2 "U1" "storage" 3701

/-- CLAIM C4. Sequential enforcement of the limit-2 example: calls one and
two are `Allowed`, call three is `Denied{LimitExceeded}` — but call four,
a full window after `t0`, is still `Denied{LimitExceeded}`: the code has no
window rollover, contradicting the claimed `Allowed{remaining:1}`. -/
theorem sequential_limit_sequence_eval :
    c4call1.1 = .Allowed ∧ c4call2.1 = .Allowed ∧
      c4call3.1 = .Denied .LimitExceeded ∧ c4call4.1 = .Denied .LimitExceeded := by
  decide

/-- User `U1` on plan `p2` where `compute` is permitted but `api_limits`
has no entry for it; no usage yet. -/
def dbUnlimited : DB :=
  ⟨[⟨"U1", "p2", 0, none⟩], [⟨"p2", "P2", "", ["compute"], []⟩], []⟩

/-- CLAIM C3 counterexample. With `compute` permitted but absent from
`api_limits`, the first call is `Allowed`, but the second call is
`Denied{LimitExceeded}`: `api_limits.get(api, 0)` defaults to `0`, so the
claim that repeated calls always return `Allowed` is false. -/
theorem unlimited_api_second_call_denied :
    (checkAndConsume dbUnlimited "U1" "compute" 0).1 = .Allowed ∧
      (checkAndConsume (checkAndConsume dbUnlimited "U1" "compute" 0).2 "U1" "compute" 1).1 =
        .Denied .LimitExceeded := by
  decide

/-- CLAIM C3 amended. An API in `api_permissions` but absent from
`api_limits` gets the default limit `0`: a call with no usage record yet is
`Allowed` (the presence check short-circuits), but once any usage record
exists (its count being non-negative) every call is `Denied{LimitExceeded}`
and the state is unchanged. -/
theorem absent_limit_defaults_to_zero (db : DB) (u a : String) (now : Nat)
    (sub : Subscription) (plan : Plan)
    (h1 : db.subscriptions.find? (fun s => s.user_id == u) = some sub)
    (h2 : db.plans.find? (fun p => p.id == sub.plan_id) = some plan)
    (h3 : a ∈ plan.api_permissions)
    (h4 : plan.api_limits.find? (fun p => p.1 == a) = none) :
    (db.usage.find? (fun x => x.user_id == u && x.api_name == a) = none →
        (checkAndConsume db u a now).1 = .Allowed) ∧
      ∀ rec : UsageRecord,
        db.usage.find? (fun x => x.user_id == u && x.api_name == a) = some rec →
        0 ≤ rec.count → checkAndConsume db u a now = (.Denied .LimitExceeded, db) := by
  have hlim : dictGet plan.api_limits a 0 = 0 := by simp [dictGet, h4]
  constructor
  · intro h5
    simp [checkAndConsume, check_access, h1, h2, h3, h5]
  · intro rec h5 h6
    have hge : rec.count ≥ dictGet plan.api_limits a 0 := by rw [hlim]; exact h6
    simp [checkAndConsume, check_access, h1, h2, h3, h5, hge]

/-- Witness for the amended C3, instantiated once with an empty usage
collection (first conjunct) and once with a usage record of count `1`
(second conjunct). -/
theorem absent_limit_defaults_to_zero_witness :
    (checkAndConsume dbUnlimited "U1" "compute" 0).1 = .Allowed ∧
      checkAndConsume ⟨[⟨"U1", "p2", 0, none⟩], [⟨"p2", "P2", "", ["compute"], []⟩],
          [⟨"U1", "compute", 1, 0⟩]⟩ "U1" "compute" 1 =
        (.Denied .LimitExceeded,
          ⟨[⟨"U1", "p2", 0, none⟩], [⟨"p2", "P2", "", ["compute"], []⟩],
            [⟨"U1", "compute", 1, 0⟩]⟩) :=
  ⟨(absent_limit_defaults_to_zero dbUnlimited "U1" "compute" 0 ⟨"U1", "p2", 0, none⟩
      ⟨"p2", "P2", "", ["compute"], []⟩ (by decide) (by decide) (by decide) (by decide)).1
      (by decide),
    (absent_limit_defaults_to_zero _ "U1" "compute" 1 ⟨"U1", "p2", 0, none⟩
      ⟨"p2", "P2", "", ["compute"], []⟩ (by decide) (by decide) (by decide) (by decide)).2
      ⟨"U1", "compute", 1, 0⟩ (by decide) (by decide)⟩

/-- User `U1` whose subscription expired at time `5` (plan `p1` grants
`storage`, limit `2`); no usage yet. -/
def dbExpired : DB :=
  ⟨[⟨"U1", "p1", 0, some 5⟩], [⟨"p1", "P1", "", ["storage"], [("storage", 2)]⟩], []⟩

/-- User `U1` whose subscription references plan id `ghost`, which does not
exist in the plans collection. -/
def dbDangling : DB :=
  ⟨[⟨"U1", "ghost", 0, none⟩], [⟨"p1", "P1", "", ["storage"], [("storage", 2)]⟩], []⟩

/-- CLAIM C7 counterexample. At time `100`, a subscription with
`end_date = 5` (long past) is not denied at all — the call is `Allowed` —
and a subscription whose plan id resolves to no plan is denied with
`PermissionDenied` (HTTP 403 "API not allowed"), not `NoSubscription`:
both halves of the claim fail on the code. -/
theorem expired_or_dangling_not_no_subscription :
    ((checkAndConsume dbExpired "U1" "storage" 100).1 = .Allowed ∧
        (checkAndConsume dbExpired "U1" "storage" 100).1 ≠ .Denied .NoSubscription) ∧
      dbDangling.plans.find? (fun p => p.id == "ghost") = none ∧
        (checkAndConsume dbDangling "U1" "storage" 100).1 = .Denied .PermissionDenied ∧
        (checkAndConsume dbDangling "U1" "storage" 100).1 ≠ .Denied .NoSubscription := by
  decide

/-- `check_access` never reads `end_date`: rewriting every subscription's
expiry (e.g. to one in the past) leaves its result unchanged. -/
theorem check_access_setEndDates (db : DB) (u a : String) (e : Option Nat) :
    check_access (setEndDates e db) u a = check_access db u a := by
  unfold check_access setEndDates
  rw [find?_map_setEnd]
  cases h : db.subscriptions.find? (fun s => s.user_id == u) with
  | none => simp
  | some s => simp

/-- CLAIM C7 amended. A subscription whose plan id no longer resolves is
denied with `PermissionDenied` (the code folds a missing plan into the 403
"API not allowed" branch), not `NoSubscription`; and an `end_date` in the
past is ignored entirely — replacing every subscription's expiry changes no
decision, so an expired subscription behaves exactly like an active one. -/
theorem dangling_plan_denied_expiry_ignored :
    (∀ (db : DB) (u a : String) (now : Nat) (sub : Subscription),
        db.subscriptions.find? (fun s => s.user_id == u) = some sub →
        db.plans.find? (fun p => p.id == sub.plan_id) = none →
        checkAndConsume db u a now = (.Denied .PermissionDenied, db)) ∧
      ∀ (db : DB) (u a : String) (now : Nat) (e : Option Nat),
        (checkAndConsume (setEndDates e db) u a now).1 = (checkAndConsume db u a now).1 := by
  constructor
  · intro db u a now sub h1 h2
    simp [checkAndConsume, check_access, h1, h2]
  · intro db u a now e
    unfold checkAndConsume
    rw [check_access_setEndDates]
    cases check_access db u a <;> rfl

/-- Witness for the amended C7: the dangling-plan half applied to
`dbDangling`, and the expiry-irrelevance half applied to `dbExpired` with
every `end_date` rewritten to the past time `5`. -/
theorem dangling_plan_denied_expiry_ignored_witness :
    checkAndConsume dbDangling "U1" "storage" 100 = (.Denied .PermissionDenied, dbDangling) ∧
      (checkAndConsume (setEndDates (some 5) dbExpired) "U1" "storage" 100).1 =
        (checkAndConsume dbExpired "U1" "storage" 100).1 :=
  ⟨dangling_plan_denied_expiry_ignored.1 dbDangling "U1" "storage" 100
      ⟨"U1", "ghost", 0, none⟩ (by decide) (by decide),
    dangling_plan_denied_expiry_ignored.2 dbExpired "U1" "storage" 100 (some 5)⟩

/-- CLAIM C8 counterexample. Starting from an empty store, caller `a` posts
a body with `user_id = "b"`, then caller `c` posts another body with
`user_id = "b"`: `replace_one` filters on the caller's id, finds nothing,
and upserts — leaving two subscription records for user `b`. -/
theorem subscribe_duplicate_records :
    ((subscribe (subscribe [] "a" ⟨"b", "p1", 0, none⟩) "c" ⟨"b", "p2", 3, none⟩).countP
        (fun r => r.user_id == "b")) = 2 := by
  decide

/-- CLAIM C8 amended. Provided every posted body's `user_id` equals the
authenticated caller's id (as in normal use), `subscribe` preserves the
at-most-one-record-per-user invariant (pairwise distinct `user_id`s), and
the record stored for the caller afterwards is exactly the new body — the
prior subscription is replaced, not duplicated. -/
theorem subscribe_upsert_invariant (store : List Subscription) (authId : String)
    (sub : Subscription) (hid : sub.user_id = authId)
    (hinv : store.Pairwise (fun r₁ r₂ => r₁.user_id ≠ r₂.user_id)) :
    (subscribe store authId sub).Pairwise (fun r₁ r₂ => r₁.user_id ≠ r₂.user_id) ∧
      (subscribe store authId sub).find? (fun r => r.user_id == authId) = some sub := by
  subst hid
  unfold subscribe
  induction store with
  | nil =>
    refine ⟨by simp [replaceOneSub], ?_⟩
    simp [replaceOneSub]
  | cons r rs ih =>
    rw [List.pairwise_cons] at hinv
    obtain ⟨hr, hrs⟩ := hinv
    by_cases hk : (r.user_id == sub.user_id) = true
    · have heq : replaceOneSub (r :: rs) sub.user_id sub = sub :: rs := by
        simp [replaceOneSub, hk]
      rw [heq]
      have hru : sub.user_id = r.user_id := by
        have h0 : r.user_id = sub.user_id := beq_iff_eq.mp hk
        exact h0.symm
      refine ⟨List.pairwise_cons.mpr ⟨fun x hx => hru ▸ hr x hx, hrs⟩, ?_⟩
      exact List.find?_cons_of_pos _ (by simp)
    · have heq : replaceOneSub (r :: rs) sub.user_id sub =
          r :: replaceOneSub rs sub.user_id sub := by
        simp [replaceOneSub, hk]
      rw [heq]
      obtain ⟨ih1, ih2⟩ := ih hrs
      constructor
      · refine List.pairwise_cons.mpr ⟨fun x hx => ?_, ih1⟩
        rcases mem_replaceOneSub _ _ _ _ hx with h1 | h2
        · exact hr x h1
        · subst h2
          intro hcontra
          exact hk (by simp [hcontra])
      · rw [List.find?_cons_of_neg _ (by simp [show (r.user_id == sub.user_id) = false by simpa using hk])]
        exact ih2

/-- Witness for the amended C8: caller `a` replaces nothing in a store
holding only user `b`; the result keeps distinct users and stores the new
body for `a`. -/
theorem subscribe_upsert_invariant_witness :
    (subscribe [⟨"b", "p1", 0, none⟩] "a" ⟨"a", "p2", 3, none⟩).Pairwise
        (fun r₁ r₂ => r₁.user_id ≠ r₂.user_id) ∧
      (subscribe [⟨"b", "p1", 0, none⟩] "a" ⟨"a", "p2", 3, none⟩).find?
          (fun r => r.user_id == "a") = some ⟨"a", "p2", 3, none⟩ :=
  subscribe_upsert_invariant [⟨"b", "p1", 0, none⟩] "a" ⟨"a", "p2", 3, none⟩ rfl
    (by simp)
